import Mathlib

/-!
Shallow embedding of `xrdp-installer.py` (a single-file installer script).

The script is a sequence of environment probes (`subprocess.getoutput`) and
external actions (`run_command`, a wrapper over `subprocess.run`).  The model
threads an explicit state `St` recording every dispatched action command,
every read-only probe command, and the content of the single persisted
state file `/etc/xrdp/xrdp-installer-check.log`.  Read-only host facts are
collected in `Host`; CLI flags in `Args`.

Python name resolution is modelled faithfully: the source references two
names that are never bound — `Release` in `check_hwe` (line 128, the global
is lowercase `release`) and in `install_prereqs` (line 157), and `verbose`
inside `main` (lines 248 and 253, the bound name is `args.verbose`).
Evaluating such a name raises `NameError`, which is not a `SetupError` and
therefore escapes the try/except in `main`.  These points are modelled as
the `PyError.nameError` outcome, raised exactly where Python would raise it
(before the corresponding command is dispatched).
-/

namespace XrdpInstaller

/-- Outcome of one external action: exit status and captured output
(`subprocess.CompletedProcess` restricted to the fields the script uses). -/
structure CmdResult where
  exitCode : Nat
  stdout : String
  stderr : String
deriving Repr, DecidableEq

/-- Errors a run can raise: `SetupError` (the script's own exception class,
line 35) and Python's `NameError`, raised when an unbound name is evaluated. -/
inductive PyError where
  | setup (msg : String)
  | nameError (n : String)
deriving Repr, DecidableEq

/-- CLI flags (argparse definitions, lines 263-270).  All boolean. -/
structure Args where
  custom : Bool
  remove : Bool
  dev : Bool
  sound : Bool
  verbose : Bool
  cuda : Bool
  nexarian : Bool
deriving Repr, DecidableEq

/-- Read-only facts about the host environment.  The string fields are the
answers the environment gives to the corresponding probe commands of the
script (lines 40-44, 108-118, 127, 204); `exec` gives each dispatched
action command (already `sudo`-prefixed when elevated) its result. -/
structure Host where
  euid : Nat
  version : String
  codename : String
  release : String
  ucodename : String
  downloadDir : String
  xdgSessionType : Option String
  xdgCurrentDesktop : Option String
  gnomeShellSessionMode : Option String
  xdgDataDirs : Option String
  gdmsession : Option String
  sndServer : String
  xrdpDirExists : Bool
  xorgxrdpDirExists : Bool
  cpuCount : Nat
  exec : String → Bool → CmdResult

/-- Mutable state of one process: the trace of dispatched action commands
(`run_command`, recorded as the un-prefixed command string), the trace of
read-only probe commands (`subprocess.getoutput`), the persisted state file
content, and the module-level mutable globals the script assigns. -/
structure St where
  tracedCmds : List String
  probes : List String
  stateFile : Option String
  modetype : String
  desktopVer : String
  sessionVer : String
  confDir : String
  gdmSess : String
  hwe : String
deriving Repr

/-- Character-list prefix test, used to model Python substring containment. -/
def isPrefixChars : List Char → List Char → Bool
  | [], _ => true
  | _ :: _, [] => false
  | a :: as, b :: bs => a == b && isPrefixChars as bs

/-- Character-list infix test. -/
def isInfixChars (needle : List Char) : List Char → Bool
  | [] => isPrefixChars needle []
  | b :: bs => isPrefixChars needle (b :: bs) || isInfixChars needle bs

/-- Python `needle in hay` on strings (substring containment). -/
def containsSub (hay needle : String) : Bool :=
  isInfixChars needle.data hay.data

/-- Python whitespace, for `str.strip`. -/
def isSpaceChar (c : Char) : Bool :=
  c == ' ' || c == '\t' || c == '\n' || c == '\r' || c == '\x0b' || c == '\x0c'

/-- Characters of the first line (what `readline` yields, minus the
terminator it keeps and `strip` would remove anyway). -/
def takeLineChars : List Char → List Char
  | [] => []
  | c :: cs => if c == '\n' then [] else c :: takeLineChars cs

/-- Python `str.strip()` on a character list. -/
def stripChars (l : List Char) : List Char :=
  ((l.dropWhile isSpaceChar).reverse.dropWhile isSpaceChar).reverse

/-- Python `f.readline().strip()`: first line of the content, stripped. -/
def readlineStrip (content : String) : String :=
  { data := stripChars (takeLineChars content.data) }

/-- The state-file write command of the custom branch (line 248). -/
def writeCustomCmd : String :=
  "bash -c \x27echo custom > /etc/xrdp/xrdp-installer-check.log\x27"

/-- The state-file write command of the standard branch (line 253). -/
def writeStandardCmd : String :=
  "bash -c \x27echo standard > /etc/xrdp/xrdp-installer-check.log\x27"

/-- Effect of a successfully executed shell command on the persisted state
file: the two `echo ... >` redirections write it, nothing else touches it. -/
def applyFsEffect (command : String) (fs : Option String) : Option String :=
  if command = writeCustomCmd then some "custom\n"
  else if command = writeStandardCmd then some "standard\n"
  else fs

/-- The command actually handed to the shell (line 57). -/
def fullCommand (command : String) (sudoFlag : Bool) : String :=
  if sudoFlag then "sudo " ++ command else command

/-- `run_command` (lines 55-74): dispatch the command (with `sudo` prefix
when asked), record the dispatch, return the captured result on exit 0 and
raise `SetupError` carrying the full command and the captured stderr on a
non-zero exit.  The shell redirection of the two state-file write commands
is reflected into `St.stateFile` on success. -/
def run_command (h : Host) (command : String) (sudoFlag : Bool) (s : St) :
    Except PyError CmdResult × St :=
  let full := fullCommand command sudoFlag
  let s1 : St := { s with tracedCmds := s.tracedCmds ++ [command] }
  let r := h.exec full sudoFlag
  if r.exitCode = 0 then
    (Except.ok r, { s1 with stateFile := applyFsEffect command s1.stateFile })
  else
    (Except.error (PyError.setup
      ("Command failed: " ++ full ++ "\nError: " ++ r.stderr)), s1)

/-- A statement of the script: a state transformer that can raise. -/
def Step : Type := St → Except PyError Unit × St

/-- A statement with no effect. -/
def skip : Step := fun s => (Except.ok (), s)

/-- Raising an exception. -/
def raiseStep (e : PyError) : Step := fun s => (Except.error e, s)

/-- `run_command` used as a statement (its return value discarded, as in
every call site of `main`). -/
def runCmd (h : Host) (command : String) (sudoFlag : Bool) : Step := fun s =>
  match run_command h command sudoFlag s with
  | (Except.ok _, s1) => (Except.ok (), s1)
  | (Except.error e, s1) => (Except.error e, s1)

/-- Sequential composition; an exception aborts the rest (Python
propagation). -/
def seq (a b : Step) : Step := fun s =>
  match a s with
  | (Except.ok _, s1) => b s1
  | (Except.error e, s1) => (Except.error e, s1)

/-- Conditional on the current mutable state. -/
def stepIf (c : St → Bool) (a b : Step) : Step := fun s =>
  if c s then a s else b s

/-- Record a `subprocess.getoutput` dispatch (read-only probe). -/
def probe (cmd : String) (s : St) : St :=
  { s with probes := s.probes ++ [cmd] }

/-- Module-level globals (lines 40-44): five `subprocess.getoutput` probes
run at import time, before `main` is entered; their outputs are the
corresponding `Host` fields, read directly where the globals are used. -/
def moduleInit (s : St) : St :=
  probe "xdg-user-dir DOWNLOAD"
    (probe "cat /etc/os-release | grep UBUNTU_CODENAME | cut -d\x27=\x27 -f2"
      (probe "lsb_release -sr"
        (probe "lsb_release -sc"
          (probe "lsb_release -sd" s))))

/-- `check_previous_runs` (lines 97-104): if the state file exists, set the
global `modetype` to its first line stripped; an absent file leaves
`modetype` at its module-level initial value `"unknown"` and is not an
error. -/
def check_previous_runs : Step := fun s =>
  match s.stateFile with
  | some content => (Except.ok (), { s with modetype := readlineStrip content })
  | none => (Except.ok (), s)

/-- `detect_desktop_environment` (lines 106-118): pure environment-variable
reads, no external command dispatched. -/
def detect_desktop_environment (h : Host) : Step := fun s =>
  if h.xdgSessionType = some "tty" then
    (Except.ok (), { s with
      desktopVer := "ubuntu:GNOME", sessionVer := "ubuntu",
      confDir := "/usr/share/ubuntu:/usr/local/share/:/usr/share/:/var/lib/snapd/desktop",
      gdmSess := "ubuntu" })
  else
    (Except.ok (), { s with
      desktopVer := h.xdgCurrentDesktop.getD "ubuntu:GNOME",
      sessionVer := h.gnomeShellSessionMode.getD "ubuntu",
      confDir := h.xdgDataDirs.getD "/usr/share/ubuntu:/usr/local/share/:/usr/share/",
      gdmSess := h.gdmsession.getD "ubuntu" })

/-- The supported-platform list (line 121). -/
def supportedOs : List String := ["Ubuntu 24.04", "Debian"]

/-- Python `any(v in version for v in supported)` (line 122). -/
def osSupported (version : String) : Bool :=
  supportedOs.any (fun v => containsSub version v)

/-- `check_os` (lines 120-123): raise `SetupError` when no supported marker
is a substring of the `lsb_release -sd` description; no side effect. -/
def check_os (h : Host) : Step := fun s =>
  if osSupported h.version then (Except.ok (), s)
  else (Except.error (PyError.setup ("Unsupported OS: " ++ h.version)), s)

/-- The first probe command of `check_hwe` (line 127). -/
def dpkgNoHweCmd : String :=
  "dpkg-query -W -f=\x27$\x7bStatus\x7d\x27 xserver-xorg-core 2>/dev/null"

/-- `check_hwe` (lines 125-129): the first getoutput probe dispatches; the
second getoutput interpolates the module-level name `Release`, which is
never bound (the global is lowercase `release`), so Python raises
`NameError` while building the f-string, before dispatching it and before
the assignment to `HWE` on line 129. -/
def check_hwe : Step := fun s =>
  (Except.error (PyError.nameError "Release"), probe dpkgNoHweCmd s)

/-- `install_cuda` (lines 131-139).  The `os.chdir` and local
`os.remove` of the downloaded keyring file have no effect the model
tracks. -/
def install_cuda (h : Host) : Step :=
  seq (runCmd h "wget https://developer.download.nvidia.com/compute/cuda/repos/ubuntu2204/x86_64/cuda-keyring_1.1-1_all.deb" false)
    (seq (runCmd h "dpkg -i cuda-keyring_1.1-1_all.deb" true)
      (seq (runCmd h "apt-get update" true)
        (runCmd h "apt-get -y install cuda" true)))

/-- `prep_os` (lines 141-146). -/
def prep_os (h : Host) : Step :=
  seq
    (if containsSub h.version "Debian" then
      seq (runCmd h "sed -i \x27s/deb cdrom:/#deb cdrom:/\x27 /etc/apt/sources.list" true)
        (runCmd h "apt-get update" true)
    else skip)
    (runCmd h "apt-get -y install pulseaudio-utils" true)

/-- The standard (package-manager) install command (line 150). -/
def stdInstallCmd : String := "apt-get install xrdp -y"

/-- `install_xrdp` (lines 148-150). -/
def install_xrdp (h : Host) : Step := runCmd h stdInstallCmd true

/-- The build-prerequisite package list (line 154). -/
def prereqPackages : String :=
  "git jq xvfb libmp3lame-dev curl libfuse-dev libx11-dev libxfixes-dev libssl-dev libpam0g-dev libtool libjpeg-dev flex bison gettext autoconf libxml-parser-perl xsltproc libxrandr-dev python3-libxml2 nasm pkg-config intltool checkinstall"

/-- The build-prerequisite install command (line 155). -/
def prereqCmd : String := "apt-get -y install " ++ prereqPackages

/-- `install_prereqs` (lines 152-159).  When `HWE == "yes"` the f-string on
line 157 references the unbound name `Release`: `NameError` before that
command is dispatched. -/
def install_prereqs (h : Host) : Step :=
  seq (runCmd h prereqCmd true)
    (stepIf (fun s => s.hwe == "yes")
      (raiseStep (PyError.nameError "Release"))
      (runCmd h "apt-get install -y xserver-xorg-dev xserver-xorg-core" true))

/-- The clone command of `get_binaries` (lines 171-172). -/
def cloneCmd (repo branch proj : String) : String :=
  "git clone https://github.com/" ++ repo ++ "/" ++ proj ++ ".git " ++ branch
    ++ " " ++ proj ++ " --recursive"

/-- `get_binaries` (lines 161-172): remove stale checkouts when present,
then clone the two repositories, repo and branch selected by the
nexarian/dev flags. -/
def get_binaries (h : Host) (a : Args) : Step :=
  let repo := if !a.nexarian then "neutrinolabs" else "Nexarian"
  let branch :=
    if a.nexarian then "mainline_merge"
    else "--branch " ++ (if a.dev then "HEAD" else "latest")
  seq (if h.xrdpDirExists then runCmd h "rm -rf xrdp" true else skip)
    (seq (if h.xorgxrdpDirExists then runCmd h "rm -rf xorgxrdp" true else skip)
      (seq (runCmd h (cloneCmd repo branch "xrdp") false)
        (runCmd h (cloneCmd repo branch "xorgxrdp") false)))

/-- The parallel-make command (lines 179 and 185). -/
def makeCmd (h : Host) : String := "make -j " ++ toString h.cpuCount

/-- `compile_source` (lines 174-186). -/
def compile_source (h : Host) : Step :=
  seq (runCmd h "./bootstrap" true)
    (seq (runCmd h "./configure --enable-fuse --enable-jpeg --enable-rfxcodec --enable-mp3lame --enable-vsock" true)
      (seq (runCmd h (makeCmd h) true)
        (seq (runCmd h "checkinstall --pkgname=xrdp --default" true)
          (seq (runCmd h "./bootstrap" true)
            (seq (runCmd h "./configure" true)
              (seq (runCmd h (makeCmd h) true)
                (runCmd h "checkinstall --pkgname=xorgxrdp --default" true)))))))

/-- `enable_service` (lines 188-193). -/
def enable_service (h : Host) : Step :=
  seq (runCmd h "systemctl daemon-reload" true)
    (seq (runCmd h "systemctl enable xrdp.service" true)
      (seq (runCmd h "systemctl enable xrdp-sesman.service" true)
        (runCmd h "systemctl start xrdp" true)))

/-- The Xwrapper fixup command (line 199). -/
def xwrapperCmd : String :=
  "sed -i \x27s/allowed_users=console/allowed_users=anybody/\x27 /etc/X11/Xwrapper.config || echo \x27allowed_users=anybody\x27 > /etc/X11/Xwrapper.config"

/-- `install_common` (lines 195-200). -/
def install_common (h : Host) : Step :=
  seq (stepIf (fun s => containsSub s.desktopVer "GNOME")
        (runCmd h "apt-get install gnome-tweaks -y" true) skip)
    (runCmd h xwrapperCmd true)

/-- The sound-server probe command (line 204). -/
def pactlCmd : String := "pactl info | grep \x27Server Name\x27 | cut -d: -f2"

/-- `enable_sound` (lines 202-213). -/
def enable_sound (h : Host) : Step := fun s =>
  let s1 := probe pactlCmd s
  if containsSub h.sndServer "PipeWire" then
    (seq (runCmd h "apt install -y git pkg-config autotools-dev libtool make gcc libpipewire-0.3-dev libspa-0.2-dev" true)
      (seq (runCmd h "git clone https://github.com/neutrinolabs/pipewire-module-xrdp.git --recursive" false)
        (seq (runCmd h "./bootstrap" false)
          (seq (runCmd h "./configure" false)
            (seq (runCmd h "make" false)
              (runCmd h "make install" true)))))) s1
  else (Except.ok (), s1)

/-- The three removal commands (lines 217-219), in dispatch order. -/
def removeCmds : List String :=
  ["systemctl stop xrdp", "apt-get autoremove xrdp -y", "apt-get purge xrdp -y"]

/-- `remove_xrdp` (lines 215-219). -/
def remove_xrdp (h : Host) : Step :=
  seq (runCmd h "systemctl stop xrdp" true)
    (seq (runCmd h "apt-get autoremove xrdp -y" true)
      (runCmd h "apt-get purge xrdp -y" true))

/-- The custom-install branch of `main` (lines 241-248), guard included.
The guard is `modetype != "standard"` (line 242).  The state-file write on
line 248 passes `verbose=verbose`, but no name `verbose` is bound in `main`
or at module scope: Python raises `NameError` while evaluating the call
arguments, before the write command is dispatched. -/
def customBranch (h : Host) (a : Args) : Step :=
  stepIf (fun s => s.modetype != "standard")
    (seq (install_prereqs h)
      (seq (get_binaries h a)
        (seq (compile_source h)
          (seq (enable_service h)
            (seq (install_common h)
              (raiseStep (PyError.nameError "verbose")))))))
    skip

/-- The standard-install branch of `main` (lines 249-253), guard included.
The guard is `modetype != "custom"` (line 250); line 253 has the same
unbound `verbose` reference as line 248. -/
def standardBranch (h : Host) : Step :=
  stepIf (fun s => s.modetype != "custom")
    (seq (install_xrdp h)
      (seq (install_common h)
        (raiseStep (PyError.nameError "verbose"))))
    skip

/-- The if/else of lines 241-253: exactly one of the two install branches
is selected by the `custom` flag. -/
def installPhase (h : Host) (a : Args) : Step :=
  if a.custom then customBranch h a else standardBranch h

/-- The body of `main` (lines 221-256) inside its try block.  The banner
only prints.  The early `return` of the remove branch (line 234) is
modelled as the else of the remove conditional. -/
def mainBody (h : Host) (a : Args) : Step := fun s =>
  if h.euid = 0 then
    (Except.error (PyError.setup "Script must not run with sudo"), s)
  else
    (seq check_previous_runs
      (seq (detect_desktop_environment h)
        (seq (check_os h)
          (seq check_hwe
            (if a.remove then remove_xrdp h
             else
              seq (if a.cuda then install_cuda h else skip)
                (seq (prep_os h)
                  (seq (installPhase h a)
                    (if a.sound then enable_sound h else skip)))))))) s

/-- Process-level outcome: normal end (exit code 0), a caught `SetupError`
(message printed, `sys.exit(1)`), or an uncaught exception (non-zero exit
with a traceback). -/
inductive Outcome where
  | success
  | setupFailure (msg : String)
  | uncaught (e : PyError)
deriving Repr, DecidableEq

/-- State at interpreter start: empty traces, the given state-file content,
the module-level initial values of the mutable globals (lines 45-50). -/
def initSt (fs : Option String) : St :=
  { tracedCmds := [], probes := [], stateFile := fs, modetype := "unknown",
    desktopVer := "", sessionVer := "", confDir := "", gdmSess := "", hwe := "" }

/-- One whole process run: import-time probes, then `main`; `SetupError` is
caught at top level (lines 258-260), anything else is uncaught. -/
def script (h : Host) (a : Args) (fs : Option String) : Outcome × St :=
  match mainBody h a (moduleInit (initSt fs)) with
  | (Except.ok _, s) => (Outcome.success, s)
  | (Except.error (PyError.setup msg), s) => (Outcome.setupFailure msg, s)
  | (Except.error (PyError.nameError n), s) =>
      (Outcome.uncaught (PyError.nameError n), s)

/-- Two consecutive process runs against the same host, the second reading
the state file the first one left behind. -/
def scriptTwice (h : Host) (a : Args) (fs : Option String) :
    (Outcome × St) × (Outcome × St) :=
  let r1 := script h a fs
  (r1, script h a r1.2.stateFile)

/-- The persisted mode as an abstract value (spec vocabulary). -/
inductive RunState where
  | Absent
  | Standard
  | Custom
deriving Repr, DecidableEq

/-- Abstraction from the script's `modetype` string to the abstract mode. -/
def runStateOf (m : String) : RunState :=
  if m = "custom" then RunState.Custom
  else if m = "standard" then RunState.Standard
  else RunState.Absent

/-- The mode a fresh run observes at startup for a given state-file
content: `check_previous_runs` applied to the interpreter-start state. -/
def readMode (fs : Option String) : RunState :=
  runStateOf (check_previous_runs (initSt fs)).2.modetype

/-- `write_file_with_sudo` (lines 76-88), modelled over the content of the
destination file.  The staging write goes to a fresh temporary file and
writes no byte of the destination; `mv` is the step that replaces the
destination, modelled as an atomic rename (on success the destination holds
the complete staged content, on failure it is untouched); `chmod` does not
change content.  `tempWriteFails` models an exception while staging. -/
def write_file_with_sudo (h : Host) (filepath tempPath content : String)
    (tempWriteFails : Bool) (dest : Option String) :
    Except PyError Unit × Option String :=
  if tempWriteFails then
    (Except.error (PyError.setup ("Failed to write file " ++ filepath)), dest)
  else
    let mvFull := fullCommand ("mv " ++ tempPath ++ " " ++ filepath) true
    let rmv := h.exec mvFull true
    if rmv.exitCode = 0 then
      let chFull := fullCommand ("chmod 644 " ++ filepath) true
      let rch := h.exec chFull true
      if rch.exitCode = 0 then (Except.ok (), some content)
      else
        (Except.error (PyError.setup ("Failed to write file " ++ filepath
          ++ ": Command failed: " ++ chFull ++ "\nError: " ++ rch.stderr)),
         some content)
    else
      (Except.error (PyError.setup ("Failed to write file " ++ filepath
        ++ ": Command failed: " ++ mvFull ++ "\nError: " ++ rmv.stderr)),
       dest)

/-- A concrete supported host: non-root, Ubuntu 24.04, every external
command succeeding. -/
def hostU : Host :=
  { euid := 1000, version := "Ubuntu 24.04.2 LTS", codename := "noble",
    release := "24.04", ucodename := "noble", downloadDir := "/home/u/Downloads",
    xdgSessionType := some "x11", xdgCurrentDesktop := some "ubuntu:GNOME",
    gnomeShellSessionMode := some "ubuntu",
    xdgDataDirs := some "/usr/share/ubuntu:/usr/share/",
    gdmsession := some "ubuntu", sndServer := " PipeWire",
    xrdpDirExists := false, xorgxrdpDirExists := false, cpuCount := 4,
    exec := fun _ _ => { exitCode := 0, stdout := "", stderr := "" } }

/-- The same host invoked with an elevated effective uid. -/
def hostRoot : Host := { hostU with euid := 0 }

/-- The same host on an unsupported platform. -/
def hostFedora : Host := { hostU with version := "Fedora Linux 40" }

/-- Flags `{custom, cuda}` (claim C1 scenario). -/
def args1 : Args :=
  { custom := true, remove := false, dev := false, sound := false,
    verbose := false, cuda := true, nexarian := false }

/-- Flags `{remove, custom, cuda}` (claim C3 scenario). -/
def args3 : Args :=
  { custom := true, remove := true, dev := false, sound := false,
    verbose := false, cuda := true, nexarian := false }

/-- All flags false (claim C5 scenario). -/
def args5 : Args :=
  { custom := false, remove := false, dev := false, sound := false,
    verbose := false, cuda := false, nexarian := false }

/-- A statement only ever adds commands satisfying `P` to the dispatch
trace. -/
def StepAddsOnly (f : Step) (P : String → Prop) : Prop :=
  ∀ s c, c ∈ (f s).2.tracedCmds → c ∈ s.tracedCmds ∨ P c

theorem seq_ok {a b : Step} {s s1 : St} (h : a s = (Except.ok (), s1)) :
    seq a b s = b s1 := by
  unfold seq; rw [h]

theorem seq_error {a b : Step} {s s1 : St} {e : PyError}
    (h : a s = (Except.error e, s1)) :
    seq a b s = (Except.error e, s1) := by
  unfold seq; rw [h]

theorem cpr_fields (s : St) :
    ∃ s1, check_previous_runs s = (Except.ok (), s1)
      ∧ s1.tracedCmds = s.tracedCmds ∧ s1.stateFile = s.stateFile := by
  rcases hc : s.stateFile with _ | c
  · exact ⟨s, by simp [check_previous_runs, hc], rfl, hc⟩
  · exact ⟨{ s with modetype := readlineStrip c },
      by simp [check_previous_runs, hc], rfl, hc⟩

theorem detect_fields (h : Host) (s : St) :
    ∃ s1, detect_desktop_environment h s = (Except.ok (), s1)
      ∧ s1.tracedCmds = s.tracedCmds ∧ s1.stateFile = s.stateFile := by
  unfold detect_desktop_environment
  by_cases hc : h.xdgSessionType = some "tty"
  · rw [if_pos hc]; exact ⟨_, rfl, rfl, rfl⟩
  · rw [if_neg hc]; exact ⟨_, rfl, rfl, rfl⟩

theorem check_os_ok (h : Host) (s : St) (h2 : osSupported h.version = true) :
    check_os h s = (Except.ok (), s) := by
  simp [check_os, h2]

theorem check_os_err (h : Host) (s : St) (h2 : osSupported h.version = false) :
    check_os h s
      = (Except.error (PyError.setup ("Unsupported OS: " ++ h.version)), s) := by
  simp [check_os, h2]

theorem check_hwe_eq (s : St) :
    check_hwe s = (Except.error (PyError.nameError "Release"),
      probe dpkgNoHweCmd s) := rfl

theorem mainBody_privilege (h : Host) (a : Args) (s : St) (h0 : h.euid = 0) :
    mainBody h a s
      = (Except.error (PyError.setup "Script must not run with sudo"), s) := by
  unfold mainBody; rw [if_pos h0]

theorem mainBody_crash (h : Host) (a : Args) (s : St)
    (h1 : ¬ h.euid = 0) (h2 : osSupported h.version = true) :
    ∃ s1, mainBody h a s = (Except.error (PyError.nameError "Release"), s1)
      ∧ s1.tracedCmds = s.tracedCmds ∧ s1.stateFile = s.stateFile := by
  obtain ⟨sa, ha, hta, hfa⟩ := cpr_fields s
  obtain ⟨sb, hb, htb, hfb⟩ := detect_fields h sa
  unfold mainBody
  rw [if_neg h1]
  rw [seq_ok ha, seq_ok hb, seq_ok (check_os_ok h sb h2),
    seq_error (check_hwe_eq sb)]
  exact ⟨probe dpkgNoHweCmd sb, rfl,
    by simp [probe, htb, hta], by simp [probe, hfb, hfa]⟩

theorem mainBody_unsupported (h : Host) (a : Args) (s : St)
    (h1 : ¬ h.euid = 0) (h2 : osSupported h.version = false) :
    ∃ s1, mainBody h a s
        = (Except.error (PyError.setup ("Unsupported OS: " ++ h.version)), s1)
      ∧ s1.tracedCmds = s.tracedCmds ∧ s1.stateFile = s.stateFile := by
  obtain ⟨sa, ha, hta, hfa⟩ := cpr_fields s
  obtain ⟨sb, hb, htb, hfb⟩ := detect_fields h sa
  unfold mainBody
  rw [if_neg h1]
  rw [seq_ok ha, seq_ok hb, seq_error (check_os_err h sb h2)]
  exact ⟨sb, rfl, by simp [htb, hta], by simp [hfb, hfa]⟩

theorem script_privilege (h : Host) (a : Args) (fs : Option String)
    (h0 : h.euid = 0) :
    (script h a fs).1 = Outcome.setupFailure "Script must not run with sudo"
    ∧ (script h a fs).2.tracedCmds = []
    ∧ (script h a fs).2.stateFile = fs := by
  unfold script
  rw [mainBody_privilege h a _ h0]
  exact ⟨rfl, by simp [moduleInit, probe, initSt], by simp [moduleInit, probe, initSt]⟩

theorem script_crash (h : Host) (a : Args) (fs : Option String)
    (h1 : ¬ h.euid = 0) (h2 : osSupported h.version = true) :
    (script h a fs).1 = Outcome.uncaught (PyError.nameError "Release")
    ∧ (script h a fs).2.tracedCmds = []
    ∧ (script h a fs).2.stateFile = fs := by
  obtain ⟨s1, hm, ht, hf⟩ := mainBody_crash h a (moduleInit (initSt fs)) h1 h2
  unfold script
  rw [hm]
  refine ⟨rfl, ?_, ?_⟩
  · rw [ht]; simp [moduleInit, probe, initSt]
  · rw [hf]; simp [moduleInit, probe, initSt]

theorem script_unsupported (h : Host) (a : Args) (fs : Option String)
    (h1 : ¬ h.euid = 0) (h2 : osSupported h.version = false) :
    (script h a fs).1 = Outcome.setupFailure ("Unsupported OS: " ++ h.version)
    ∧ (script h a fs).2.tracedCmds = []
    ∧ (script h a fs).2.stateFile = fs := by
  obtain ⟨s1, hm, ht, hf⟩ := mainBody_unsupported h a (moduleInit (initSt fs)) h1 h2
  unfold script
  rw [hm]
  refine ⟨rfl, ?_, ?_⟩
  · rw [ht]; simp [moduleInit, probe, initSt]
  · rw [hf]; simp [moduleInit, probe, initSt]

theorem script_trace_nil (h : Host) (a : Args) (fs : Option String) :
    (script h a fs).2.tracedCmds = [] := by
  by_cases h0 : h.euid = 0
  · exact (script_privilege h a fs h0).2.1
  · cases h2 : osSupported h.version
    · exact (script_unsupported h a fs h0 h2).2.1
    · exact (script_crash h a fs h0 h2).2.1

theorem script_stateFile_eq (h : Host) (a : Args) (fs : Option String) :
    (script h a fs).2.stateFile = fs := by
  by_cases h0 : h.euid = 0
  · exact (script_privilege h a fs h0).2.2
  · cases h2 : osSupported h.version
    · exact (script_unsupported h a fs h0 h2).2.2
    · exact (script_crash h a fs h0 h2).2.2

theorem str_ne_of_head {a b : String} {c1 c2 : Char}
    (ha : a.data.head? = some c1) (hb : b.data.head? = some c2)
    (hne : c1 ≠ c2) : a ≠ b := by
  intro he
  rw [he, hb] at ha
  exact hne (Option.some.inj ha).symm

theorem cloneCmd_ne_std (r b p : String) : cloneCmd r b p ≠ stdInstallCmd :=
  @str_ne_of_head (cloneCmd r b p) stdInstallCmd 'g' 'a' rfl rfl (by decide)

theorem makeCmd_ne_std (h : Host) : makeCmd h ≠ stdInstallCmd :=
  @str_ne_of_head (makeCmd h) stdInstallCmd 'm' 'a' rfl rfl (by decide)

theorem addsOnly_skip (P : String → Prop) : StepAddsOnly skip P :=
  fun _ _ hc => Or.inl hc

theorem addsOnly_raise (e : PyError) (P : String → Prop) :
    StepAddsOnly (raiseStep e) P :=
  fun _ _ hc => Or.inl hc

theorem addsOnly_runCmd (h : Host) (cmd : String) (b : Bool)
    (P : String → Prop) (hp : P cmd) : StepAddsOnly (runCmd h cmd b) P := by
  intro s c hc
  by_cases hz : (h.exec (fullCommand cmd b) b).exitCode = 0 <;>
    · simp [runCmd, run_command, hz, List.mem_append] at hc
      rcases hc with h' | h'
      · exact Or.inl h'
      · subst h'; exact Or.inr hp

theorem addsOnly_seq {f g : Step} {P : String → Prop}
    (hf : StepAddsOnly f P) (hg : StepAddsOnly g P) :
    StepAddsOnly (seq f g) P := by
  intro s c hc
  unfold seq at hc
  rcases hfs : f s with ⟨r, s1⟩
  rw [hfs] at hc
  have hmem : c ∈ s1.tracedCmds → c ∈ s.tracedCmds ∨ P c := by
    intro h1
    have : c ∈ (f s).2.tracedCmds := by rw [hfs]; exact h1
    exact hf s c this
  cases r with
  | ok u =>
      rcases hg s1 c hc with h' | h'
      · exact hmem h'
      · exact Or.inr h'
  | error e => exact hmem hc

theorem addsOnly_stepIf {cond : St → Bool} {f g : Step} {P : String → Prop}
    (hf : StepAddsOnly f P) (hg : StepAddsOnly g P) :
    StepAddsOnly (stepIf cond f g) P := by
  intro s c hc
  unfold stepIf at hc
  by_cases hb : cond s = true
  · rw [if_pos hb] at hc; exact hf s c hc
  · rw [if_neg hb] at hc; exact hg s c hc

theorem addsOnly_ite {b : Bool} {f g : Step} {P : String → Prop}
    (hf : StepAddsOnly f P) (hg : StepAddsOnly g P) :
    StepAddsOnly (if b then f else g) P := by
  cases b
  · simpa using hg
  · simpa using hf

theorem install_prereqs_addsOnly (h : Host) :
    StepAddsOnly (install_prereqs h) (fun c => c ≠ stdInstallCmd) := by
  unfold install_prereqs
  exact addsOnly_seq (addsOnly_runCmd _ _ _ _ (by decide))
    (addsOnly_stepIf (addsOnly_raise _ _) (addsOnly_runCmd _ _ _ _ (by decide)))

theorem get_binaries_addsOnly (h : Host) (a : Args) :
    StepAddsOnly (get_binaries h a) (fun c => c ≠ stdInstallCmd) := by
  unfold get_binaries
  exact addsOnly_seq
    (addsOnly_ite (addsOnly_runCmd _ _ _ _ (by decide)) (addsOnly_skip _))
    (addsOnly_seq
      (addsOnly_ite (addsOnly_runCmd _ _ _ _ (by decide)) (addsOnly_skip _))
      (addsOnly_seq
        (addsOnly_runCmd _ _ _ _ (cloneCmd_ne_std _ _ _))
        (addsOnly_runCmd _ _ _ _ (cloneCmd_ne_std _ _ _))))

theorem compile_source_addsOnly (h : Host) :
    StepAddsOnly (compile_source h) (fun c => c ≠ stdInstallCmd) := by
  unfold compile_source
  exact addsOnly_seq (addsOnly_runCmd _ _ _ _ (by decide))
    (addsOnly_seq (addsOnly_runCmd _ _ _ _ (by decide))
      (addsOnly_seq (addsOnly_runCmd _ _ _ _ (makeCmd_ne_std h))
        (addsOnly_seq (addsOnly_runCmd _ _ _ _ (by decide))
          (addsOnly_seq (addsOnly_runCmd _ _ _ _ (by decide))
            (addsOnly_seq (addsOnly_runCmd _ _ _ _ (by decide))
              (addsOnly_seq (addsOnly_runCmd _ _ _ _ (makeCmd_ne_std h))
                (addsOnly_runCmd _ _ _ _ (by decide))))))))

theorem enable_service_addsOnly (h : Host) :
    StepAddsOnly (enable_service h) (fun c => c ≠ stdInstallCmd) := by
  unfold enable_service
  exact addsOnly_seq (addsOnly_runCmd _ _ _ _ (by decide))
    (addsOnly_seq (addsOnly_runCmd _ _ _ _ (by decide))
      (addsOnly_seq (addsOnly_runCmd _ _ _ _ (by decide))
        (addsOnly_runCmd _ _ _ _ (by decide))))

theorem install_common_addsOnly (h : Host) (P : String → Prop)
    (hp1 : P "apt-get install gnome-tweaks -y") (hp2 : P xwrapperCmd) :
    StepAddsOnly (install_common h) P := by
  unfold install_common
  exact addsOnly_seq
    (addsOnly_stepIf (addsOnly_runCmd _ _ _ _ hp1) (addsOnly_skip _))
    (addsOnly_runCmd _ _ _ _ hp2)

theorem customBranch_ne_std (h : Host) (a : Args) :
    StepAddsOnly (customBranch h a) (fun c => c ≠ stdInstallCmd) := by
  unfold customBranch
  exact addsOnly_stepIf
    (addsOnly_seq (install_prereqs_addsOnly h)
      (addsOnly_seq (get_binaries_addsOnly h a)
        (addsOnly_seq (compile_source_addsOnly h)
          (addsOnly_seq (enable_service_addsOnly h)
            (addsOnly_seq
              (install_common_addsOnly h _ (by decide) (by decide))
              (addsOnly_raise _ _))))))
    (addsOnly_skip _)

theorem standardBranch_ne_prereq (h : Host) :
    StepAddsOnly (standardBranch h) (fun c => c ≠ prereqCmd) := by
  unfold standardBranch install_xrdp
  exact addsOnly_stepIf
    (addsOnly_seq (addsOnly_runCmd _ _ _ _ (by decide))
      (addsOnly_seq
        (install_common_addsOnly h _ (by decide) (by decide))
        (addsOnly_raise _ _)))
    (addsOnly_skip _)

theorem runCmd_ok (h : Host) (cmd : String) (b : Bool) (s : St)
    (hz : (h.exec (fullCommand cmd b) b).exitCode = 0) :
    runCmd h cmd b s = (Except.ok (), { s with
      tracedCmds := s.tracedCmds ++ [cmd],
      stateFile := applyFsEffect cmd s.stateFile }) := by
  simp [runCmd, run_command, hz]

/-- C1, counterexample.  The claim asserts that on the second of two
consecutive `custom=true` runs, CUDA sub-steps are dispatched again when
flagged.  At a concrete supported non-root host with
`{custom:=true, cuda:=true}` and no prior state, the second run dispatches
no CUDA action — in fact no action at all — because it aborts with the
uncaught `NameError` on `Release` in `check_hwe`, so the claim as stated is
false. -/
theorem c1_counterexample :
    args1.custom = true ∧ args1.cuda = true
    ∧ (scriptTwice hostU args1 none).2.1
        = Outcome.uncaught (PyError.nameError "Release")
    ∧ ("apt-get -y install cuda" ∈ (scriptTwice hostU args1 none).2.2.tracedCmds
        → False)
    ∧ (scriptTwice hostU args1 none).2.2.tracedCmds = [] :=
  ⟨rfl, rfl, rfl, by decide, rfl⟩

/-- C1, amended.  Running with `custom=true` twice in a row: the second run
performs zero main-mode install actions, and zero CUDA/sound actions as
well, whatever the flags — every run on a supported non-root host aborts in
the hardware-enablement probe (`check_hwe` evaluates the unbound name
`Release`) before any install logic, dispatching no external action at
all. -/
theorem c1_second_run_dispatches_nothing (h : Host) (a : Args)
    (fs : Option String) (h1 : ¬ h.euid = 0)
    (h2 : osSupported h.version = true) (_hc : a.custom = true) :
    (scriptTwice h a fs).1.2.tracedCmds = []
    ∧ (scriptTwice h a fs).2.1 = Outcome.uncaught (PyError.nameError "Release")
    ∧ (scriptTwice h a fs).2.2.tracedCmds = [] := by
  have r1 := script_crash h a fs h1 h2
  have r2 := script_crash h a (script h a fs).2.stateFile h1 h2
  exact ⟨r1.2.1, r2.1, r2.2.1⟩

/-- C1, witness for the amended theorem at a concrete input. -/
theorem c1_witness :
    ¬ hostU.euid = 0 ∧ osSupported hostU.version = true
    ∧ args1.custom = true
    ∧ (scriptTwice hostU args1 none).2.2.tracedCmds = [] :=
  ⟨by decide, rfl, rfl,
    (c1_second_run_dispatches_nothing hostU args1 none (by decide) rfl rfl).2.2⟩

/-- C2: a single run never dispatches actions from both the custom-install
branch and the standard-install branch.  First conjunct: over a whole
process run, the trace never contains both the first custom-branch action
(the build-prerequisite install) and the standard-install action.  Second
conjunct: the same for the install-phase block of `main` (lines 241-253)
run from any mutable state with an empty trace, for every prior `modetype`
and flag combination — each branch can only ever add its own commands. -/
theorem c2_branches_mutually_exclusive (h : Host) (a : Args)
    (fs : Option String) (s : St) (hs : s.tracedCmds = []) :
    ¬(prereqCmd ∈ (script h a fs).2.tracedCmds
        ∧ stdInstallCmd ∈ (script h a fs).2.tracedCmds)
    ∧ ¬(prereqCmd ∈ (installPhase h a s).2.tracedCmds
        ∧ stdInstallCmd ∈ (installPhase h a s).2.tracedCmds) := by
  constructor
  · rintro ⟨hp, _⟩
    rw [script_trace_nil] at hp
    exact List.not_mem_nil _ hp
  · rintro ⟨hp, hq⟩
    by_cases hcu : a.custom = true
    · unfold installPhase at hq
      rw [if_pos hcu] at hq
      rcases customBranch_ne_std h a s _ hq with h' | h'
      · rw [hs] at h'; exact List.not_mem_nil _ h'
      · exact h' rfl
    · unfold installPhase at hp
      rw [if_neg hcu] at hp
      rcases standardBranch_ne_prereq h s _ hp with h' | h'
      · rw [hs] at h'; exact List.not_mem_nil _ h'
      · exact h' rfl

/-- C2, witness at a concrete input. -/
theorem c2_witness :
    (initSt none).tracedCmds = []
    ∧ ¬(prereqCmd ∈ (installPhase hostU args5 (initSt none)).2.tracedCmds
        ∧ stdInstallCmd ∈ (installPhase hostU args5 (initSt none)).2.tracedCmds) :=
  ⟨rfl, (c2_branches_mutually_exclusive hostU args5 none (initSt none) rfl).2⟩

/-- C3 (code-bug evidence): at flags `{remove, custom, cuda}` on a
supported non-root host with every external command succeeding, the run
ends with the uncaught `NameError` on `Release` raised in `check_hwe`
(called on line 230, before the remove branch on line 232), and dispatches
zero actions — in particular not the three removal actions the claim
requires, and the exit is not the claimed success. -/
theorem c3_remove_run_aborts_in_probe :
    (script hostU args3 none).1 = Outcome.uncaught (PyError.nameError "Release")
    ∧ (script hostU args3 none).2.tracedCmds = []
    ∧ ("systemctl stop xrdp" ∈ (script hostU args3 none).2.tracedCmds → False) :=
  ⟨rfl, rfl, by decide⟩

/-- C4, counterexample.  Invoked with effective uid 0 the run does fail
with the privilege `SetupError` and exit code 1, but the claim's "zero
external commands are dispatched prior to the failure" is false: the five
module-level `subprocess.getoutput` probes (lines 40-44) run at import
time, before `main`'s check — here `lsb_release -sd` is already in the
probe trace at failure. -/
theorem c4_counterexample :
    (script hostRoot args5 none).1
      = Outcome.setupFailure "Script must not run with sudo"
    ∧ "lsb_release -sd" ∈ (script hostRoot args5 none).2.probes
    ∧ (script hostRoot args5 none).2.tracedCmds = [] :=
  ⟨rfl, by decide, rfl⟩

/-- C4, amended.  With an elevated effective identity the run fails with
the privilege `SetupError` (caught, exit code 1), and zero actions go
through the command executor (`run_command`) before or after the failure;
only the read-only module-load probes execute. -/
theorem c4_privilege_blocks_actions (h : Host) (a : Args) (fs : Option String)
    (h0 : h.euid = 0) :
    (script h a fs).1 = Outcome.setupFailure "Script must not run with sudo"
    ∧ (script h a fs).2.tracedCmds = [] := by
  obtain ⟨r1, r2, _⟩ := script_privilege h a fs h0
  exact ⟨r1, r2⟩

/-- C4, witness for the amended theorem at a concrete input. -/
theorem c4_witness :
    (script hostRoot args1 none).1
      = Outcome.setupFailure "Script must not run with sudo"
    ∧ (script hostRoot args1 none).2.tracedCmds = [] :=
  c4_privilege_blocks_actions hostRoot args1 none rfl

/-- C5 (code-bug evidence): with all flags false and no prior state on a
supported non-root host with every external command succeeding, the run
ends with the uncaught `NameError` on `Release` from `check_hwe`,
dispatches zero actions (so no package-manager install and no fixup), and
leaves the state file unwritten — against the claimed install, `standard`
marker, and exit code 0. -/
theorem c5_standard_scenario_aborts :
    (script hostU args5 none).1 = Outcome.uncaught (PyError.nameError "Release")
    ∧ (script hostU args5 none).2.tracedCmds = []
    ∧ (script hostU args5 none).2.stateFile = none :=
  ⟨rfl, rfl, rfl⟩

/-- C6: state-store round trip.  A successful dispatch of the custom
state-write command leaves the state file holding `custom` (plus the
newline `echo` appends), which the next startup read maps to `Custom`; an
absent file reads as `Absent` and `check_previous_runs` returns normally
(no error). -/
theorem c6_state_roundtrip (h : Host) (s : St)
    (hz : (h.exec (fullCommand writeCustomCmd true) true).exitCode = 0) :
    (runCmd h writeCustomCmd true s).2.stateFile = some "custom\n"
    ∧ readMode (some "custom\n") = RunState.Custom
    ∧ readMode none = RunState.Absent
    ∧ (check_previous_runs (initSt none)).1 = Except.ok () := by
  refine ⟨?_, rfl, rfl, rfl⟩
  rw [runCmd_ok h writeCustomCmd true s hz]
  simp [applyFsEffect]

/-- C6, witness at a concrete input. -/
theorem c6_witness :
    (runCmd hostU writeCustomCmd true (initSt none)).2.stateFile
      = some "custom\n" :=
  (c6_state_roundtrip hostU (initSt none) rfl).1

/-- C7: `check_os` fails with the unsupported-platform `SetupError` exactly
when neither supported marker (`Ubuntu 24.04`, `Debian`) is a substring of
the probed version description, and it never changes the state (no side
effects); when the failure fires, the whole run ends with that caught
error and zero dispatched actions (abort before any mutation). -/
theorem c7_unsupported_platform (h : Host) (a : Args) (fs : Option String)
    (h1 : ¬ h.euid = 0) (h2 : osSupported h.version = false) :
    (∀ (g : Host) (s : St),
      ((check_os g s).1
          = Except.error (PyError.setup ("Unsupported OS: " ++ g.version))
        ↔ osSupported g.version = false)
      ∧ (check_os g s).2 = s)
    ∧ (script h a fs).1 = Outcome.setupFailure ("Unsupported OS: " ++ h.version)
    ∧ (script h a fs).2.tracedCmds = [] := by
  obtain ⟨r1, r2, _⟩ := script_unsupported h a fs h1 h2
  refine ⟨?_, r1, r2⟩
  intro g s
  cases hb : osSupported g.version <;> simp [check_os, hb]

/-- C7, witness at a concrete unsupported host. -/
theorem c7_witness :
    (script hostFedora args5 none).1
      = Outcome.setupFailure ("Unsupported OS: " ++ hostFedora.version) :=
  (c7_unsupported_platform hostFedora args5 none (by decide) rfl).2.1

/-- C8: the command-executor contract of `run_command`.  When the external
action exits 0 the captured result is returned; the call fails with a
`SetupError` carrying the full command and its captured stderr if and only
if the action exits non-zero. -/
theorem c8_run_command_contract (h : Host) (cmd : String) (b : Bool) (s : St) :
    ((h.exec (fullCommand cmd b) b).exitCode = 0 →
      (run_command h cmd b s).1 = Except.ok (h.exec (fullCommand cmd b) b))
    ∧ (¬ (h.exec (fullCommand cmd b) b).exitCode = 0 ↔
      (run_command h cmd b s).1 = Except.error (PyError.setup
        ("Command failed: " ++ fullCommand cmd b ++ "\nError: "
          ++ (h.exec (fullCommand cmd b) b).stderr))) := by
  by_cases hz : (h.exec (fullCommand cmd b) b).exitCode = 0 <;>
    simp [run_command, hz]

/-- C8, witness at a concrete input (success side of the contract). -/
theorem c8_witness :
    (run_command hostU "apt-get update" true (initSt none)).1
      = Except.ok (hostU.exec (fullCommand "apt-get update" true) true) :=
  (c8_run_command_contract hostU "apt-get update" true (initSt none)).1 rfl

/-- C9: `write_file_with_sudo` stages the content in a temporary file and
then moves it into place, so the destination is never partially written:
whatever fails (staging, the move, or the permission fix), the destination
holds either its original content or the complete new content, and on
success it holds the complete new content. -/
theorem c9_privileged_write_atomic (h : Host)
    (filepath tempPath content : String) (tempWriteFails : Bool)
    (dest : Option String) :
    ((write_file_with_sudo h filepath tempPath content tempWriteFails dest).2
        = dest
      ∨ (write_file_with_sudo h filepath tempPath content tempWriteFails dest).2
        = some content)
    ∧ ((write_file_with_sudo h filepath tempPath content tempWriteFails dest).1
        = Except.ok () →
      (write_file_with_sudo h filepath tempPath content tempWriteFails dest).2
        = some content) := by
  unfold write_file_with_sudo
  cases tempWriteFails
  · by_cases hmv :
      (h.exec (fullCommand ("mv " ++ tempPath ++ " " ++ filepath) true) true).exitCode = 0
    · by_cases hch :
        (h.exec (fullCommand ("chmod 644 " ++ filepath) true) true).exitCode = 0
      · simp [hmv, hch]
      · simp [hmv, hch]
    · simp [hmv]
  · simp

/-- C9, witness at a concrete input (all steps succeed). -/
theorem c9_witness :
    (write_file_with_sudo hostU "/etc/X11/Xwrapper.config" "/tmp/stage"
        "allowed_users=anybody" false none).2 = some "allowed_users=anybody" :=
  (c9_privileged_write_atomic hostU "/etc/X11/Xwrapper.config" "/tmp/stage"
    "allowed_users=anybody" false none).2 rfl

/-- C10: the remove path's frame effect on the persisted mode marker.
`remove_xrdp` dispatches exactly the three removal commands (service stop,
autoremove, purge) and leaves the state file untouched; a whole remove run
leaves the state-file content exactly as it found it, so a subsequent run's
startup read observes the mode persisted before removal. -/
theorem c10_remove_frame (h : Host) (a : Args) (fs : Option String) (s : St)
    (_hr : a.remove = true) (hok : ∀ c b, (h.exec c b).exitCode = 0) :
    (remove_xrdp h s).2.stateFile = s.stateFile
    ∧ (remove_xrdp h s).2.tracedCmds = s.tracedCmds ++ removeCmds
    ∧ (script h a fs).2.stateFile = fs
    ∧ readMode (script h a fs).2.stateFile = readMode fs := by
  refine ⟨?_, ?_, script_stateFile_eq h a fs, by rw [script_stateFile_eq]⟩
  · simp [remove_xrdp, seq, runCmd, run_command, hok, applyFsEffect,
      writeCustomCmd, writeStandardCmd]
  · simp [remove_xrdp, seq, runCmd, run_command, hok, applyFsEffect,
      writeCustomCmd, writeStandardCmd, removeCmds]

/-- C10, witness at a concrete input with a previously persisted mode. -/
theorem c10_witness :
    (remove_xrdp hostU (initSt (some "custom\n"))).2.stateFile
      = some "custom\n"
    ∧ readMode (script hostU args3 (some "custom\n")).2.stateFile
      = readMode (some "custom\n") :=
  ⟨(c10_remove_frame hostU args3 (some "custom\n")
      (initSt (some "custom\n")) rfl (fun _ _ => rfl)).1,
   (c10_remove_frame hostU args3 (some "custom\n")
      (initSt (some "custom\n")) rfl (fun _ _ => rfl)).2.2.2⟩

end XrdpInstaller
